import Mathlib

/-!
Shallow embedding of the biscuit sorting system in `main.py`:
the defect classifier (`BiscuitDefectDetector.detect_defects`), the
object locator (`VisionBasedSorter.get_object_position`), and the
sorting control loop (`VisionBasedSorter.sort` plus `main`), modelled
as pure functions over abstracted frames and per-iteration environment
inputs, producing a trace of actuator/resource commands.
-/

namespace WLAKATA

/-- Python `int()` applied to a nonneg/neg rational: truncation toward zero. -/
def pyInt (q : ℚ) : ℤ := if 0 ≤ q then ⌊q⌋ else ⌈q⌉

/-- A contour as the code consumes it: its `cv2.contourArea` value (used to
select the largest contour) and its zeroth and first image moments
(`M["m00"]`, `M["m10"]`), used for the centroid. -/
structure Contour where
  area : ℚ
  m00 : ℚ
  m10 : ℚ
deriving Repr, DecidableEq

/-- A camera frame, abstracted to exactly the features the two analyses read:
its pixel width, the external contours found by the locator's thresholding,
the intensity-histogram peak bin, the min/max intensity of the preprocessed
image, and the areas of the external contours found by the classifier's own
(independent) thresholding. -/
structure Frame where
  width : ℕ
  locContours : List Contour
  peak : ℕ
  imin : ℕ
  imax : ℕ
  clsAreas : List ℚ
deriving Repr, DecidableEq

/-- Python `max(xs, key=...)` over contour areas: scans left to right and
replaces the current best only on a strictly greater key, so the first
maximal element wins. -/
def maxByAreaAux (c : Contour) : List Contour → Contour
  | [] => c
  | x :: xs => if x.area > c.area then maxByAreaAux x xs else maxByAreaAux c xs

/-- Python `max` over a list of area values (first maximal value wins). -/
def maxAreaAux (a : ℚ) : List ℚ → ℚ
  | [] => a
  | x :: xs => if x > a then maxAreaAux x xs else maxAreaAux a xs

/-- Classification statuses; `unknown` is the initial value the code writes
into the result dict before the if/elif/else chain runs. -/
inductive Status
  | unknown
  | good
  | broken
  | semi_burned
  | fully_burned
deriving Repr, DecidableEq

/-- One entry of `BiscuitDefectDetector.thresholds`. -/
structure Thresh where
  gray : ℕ × ℕ
  intensity_range : ℕ × ℕ
  peak_intensity : ℕ
deriving Repr, DecidableEq

def thresholds_good : Thresh := ⟨(68, 180), (100, 180), 150⟩

def thresholds_broken : Thresh := ⟨(0, 255), (10, 180), 160⟩

def thresholds_semi_burned : Thresh := ⟨(0, 255), (0, 210), 100⟩

def thresholds_fully_burned : Thresh := ⟨(1, 255), (0, 150), 45⟩

/-- The metrics block of a classification result. -/
structure Metrics where
  peak_intensity : ℕ
  intensity_range : ℕ × ℕ
  area : ℚ
deriving Repr, DecidableEq

/-- Return value of `detect_defects`. The no-contour branch of the code
returns the dict `{'status': 'no_biscuit_detected'}` with no confidence and
no metrics keys, so it is a separate constructor carrying nothing. -/
inductive DetectResult
  | no_biscuit_detected
  | classified (status : Status) (confidence : ℚ) (metrics : Metrics)
deriving Repr, DecidableEq

/-- Whether the returned dict carries a metrics block. -/
def DetectResult.hasMetrics : DetectResult → Bool
  | .no_biscuit_detected => false
  | .classified _ _ _ => true

/-- Whether the returned dict carries a confidence value. -/
def DetectResult.hasConfidence : DetectResult → Bool
  | .no_biscuit_detected => false
  | .classified _ _ _ => true

/-- The if/elif/else chain of `detect_defects`, returning the status and
confidence it assigns over the initial `(unknown, 0.0)` pair. -/
def classifyChain (peak : ℕ) : Status × ℚ :=
  if thresholds_good.intensity_range.1 ≤ peak ∧
      peak ≤ thresholds_good.intensity_range.2 then
    (.good, 9/10)
  else if peak ≤ thresholds_fully_burned.peak_intensity then
    (.fully_burned, 85/100)
  else if peak ≤ thresholds_semi_burned.peak_intensity then
    (.semi_burned, 8/10)
  else
    (.broken, 75/100)

/-- `BiscuitDefectDetector.detect_defects`: if no contour is found the bare
no-biscuit dict is returned; otherwise the metrics block is filled from the
histogram peak, the intensity range and the largest contour's area, and the
threshold chain assigns status and confidence. -/
def detect_defects (f : Frame) : DetectResult :=
  match f.clsAreas with
  | [] => .no_biscuit_detected
  | a :: rest =>
    let area := maxAreaAux a rest
    let sc := classifyChain f.peak
    .classified sc.1 sc.2 ⟨f.peak, (f.imin, f.imax), area⟩

/-- Return value of `get_object_position`: `(x, y, z, is_in_pick_zone)`. -/
structure PosResult where
  x : ℚ
  y : ℚ
  z : ℚ
  in_pick_zone : Bool
deriving Repr, DecidableEq

def pick_zone_margin : ℚ := 50

/-- `VisionBasedSorter.get_object_position`: select the largest contour,
bail out with the `(0,0,0,false)` sentinel when there is none or its zeroth
moment is zero, otherwise compute the truncated centroid x, the pick-zone
test `|cx - width/2| < 50`, and the fixed-x/z workspace mapping with
`y = ((cx - width/2) / width) * 400`. -/
def get_object_position (f : Frame) : PosResult :=
  match f.locContours with
  | [] => ⟨0, 0, 0, false⟩
  | c :: rest =>
    let contour := maxByAreaAux c rest
    if contour.m00 = 0 then ⟨0, 0, 0, false⟩
    else
      let cx : ℚ := (pyInt (contour.m10 / contour.m00) : ℚ)
      let center_x : ℚ := (f.width : ℚ) / 2
      ⟨200, (cx - center_x) / (f.width : ℚ) * 400, 50,
        decide (|cx - center_x| < pick_zone_margin)⟩

/-- `VisionBasedSorter.drop_zones`: Python dict lookup; a missing key
(`KeyError`) is `none`. -/
def drop_zones : Status → Option (ℚ × ℚ × ℚ)
  | .good => some (200, 0, 50)
  | .broken => some (200, 100, 50)
  | .semi_burned => some (200, -100, 50)
  | .fully_burned => some (200, -200, 50)
  | .unknown => none

/-! ## The sorting loop as a trace semantics

`VisionBasedSorter.sort` and `main` are modelled as pure functions from a
list of per-iteration environment inputs (what the camera delivered, whether
the quit key was down at the end-of-iteration check, whether the transport
fails on the first motion command of a pick) to the list of actuator and
resource commands they issue, plus an outcome. -/

/-- Which of the two `serial.Serial("COM3", 38400)` handles a transport
event belongs to: the one opened in `VisionBasedSorter.__init__` or the one
opened inside `RobotController.__init__`. -/
inductive Owner
  | sorter
  | robot
deriving Repr, DecidableEq

/-- Externally visible commands and resource events the program issues. -/
inductive Cmd
  | serialOpen (o : Owner)
  | camOpen
  | home
  | speed (v : ℚ)
  | moveTo (x y z : ℚ)
  | sleep (t : ℚ)
  | pump (n : ℕ)
  | waitKeyCheck
  | capRelease
  | destroyAllWindows
  | serialClose (o : Owner)
deriving Repr, DecidableEq

/-- Environment of one loop iteration: the captured frame (`none` models
`cap.read()` returning `ret = False`), whether `cv2.waitKey` reports the
quit key at this iteration's check, and whether the transport raises on the
first motion command of a pick-place attempted this iteration. -/
structure IterEnv where
  capture : Option Frame
  quitKey : Bool
  moveFails : Bool
deriving Repr, DecidableEq

/-- How one loop iteration ends: fall through to the next iteration
(including the `continue` paths), `break` out of the loop, or raise. -/
inductive IterOut
  | next
  | brk
  | err
deriving Repr, DecidableEq

def conveyor_speed : ℚ := 30

def settle : ℚ := 1/2

/-- `RobotController.pick`: move to the position, settle, suction on,
settle. -/
def pickTrace (x y z : ℚ) : List Cmd :=
  [.moveTo x y z, .sleep settle, .pump 1, .sleep settle]

/-- `RobotController.place`: move to the position, settle, suction off,
settle. -/
def placeTrace (x y z : ℚ) : List Cmd :=
  [.moveTo x y z, .sleep settle, .pump 0, .sleep settle]

/-- One iteration of the `while True` loop in `VisionBasedSorter.sort`:
capture failure logs and `continue`s (no commands, no quit check); an
object outside the pick zone falls through to the quit check; an object in
the pick zone stops the conveyor, classifies, and either resumes and
`continue`s on `no_biscuit_detected` (skipping the quit check), raises
`KeyError` on a missing drop zone, aborts on a transport failure during the
first motion, or runs the full pick/place, resumes the conveyor and reaches
the quit check. -/
def runIter (e : IterEnv) : List Cmd × IterOut :=
  match e.capture with
  | none => ([], .next)
  | some f =>
    let p := get_object_position f
    if p.in_pick_zone then
      match detect_defects f with
      | .no_biscuit_detected =>
        ([Cmd.speed 0, Cmd.speed conveyor_speed], .next)
      | .classified st _ _ =>
        match drop_zones st with
        | none => ([Cmd.speed 0], .err)
        | some dz =>
          if e.moveFails then
            ([Cmd.speed 0, Cmd.moveTo p.x p.y p.z], .err)
          else
            ([Cmd.speed 0] ++ pickTrace p.x p.y p.z
                ++ placeTrace dz.1 dz.2.1 dz.2.2
                ++ [Cmd.speed conveyor_speed, Cmd.waitKeyCheck],
             if e.quitKey then .brk else .next)
    else
      ([Cmd.waitKeyCheck], if e.quitKey then .brk else .next)

/-- How the loop as a whole ends over the supplied environments:
still `running` when they are exhausted, `quit` on the quit-key `break`,
`fault` when an iteration raised. -/
inductive SortOut
  | running
  | quit
  | fault
deriving Repr, DecidableEq

/-- The `while True` loop over a finite list of iteration environments. -/
def runLoop : List IterEnv → List Cmd × SortOut
  | [] => ([], .running)
  | e :: rest =>
    let r := runIter e
    match r.2 with
    | .next =>
      let r2 := runLoop rest
      (r.1 ++ r2.1, r2.2)
    | .brk => (r.1, .quit)
    | .err => (r.1, .fault)

/-- The `finally` block of `sort`: `cap.release()`,
`cv2.destroyAllWindows()`, `robot.cleanup()` (pump off, close the robot's
serial), `conveyor.speed(0)`, `self.serial.close()`. -/
def cleanupTrace : List Cmd :=
  [Cmd.capRelease, Cmd.destroyAllWindows, Cmd.pump 0,
   Cmd.serialClose .robot, Cmd.speed 0, Cmd.serialClose .sorter]

/-- `VisionBasedSorter.sort`: home, start the conveyor, run the loop, and
run the cleanup exactly once on every exit path (the `finally`). -/
def sortRun (envs : List IterEnv) : List Cmd × SortOut :=
  let r := runLoop envs
  ([Cmd.home, Cmd.speed conveyor_speed] ++ r.1 ++ cleanupTrace, r.2)

/-- Resource acquisitions of `VisionBasedSorter.__init__`: the sorter's
serial port, then (inside `RobotController()`) the robot's serial port,
then the camera. -/
def initTrace : List Cmd :=
  [Cmd.serialOpen .sorter, Cmd.serialOpen .robot, Cmd.camOpen]

/-- The whole program's command trace: construction then `sort`. -/
def programTrace (envs : List IterEnv) : List Cmd :=
  initTrace ++ (sortRun envs).1

/-- Exit status of `main`: `sort`'s exceptions are all caught
(`except KeyboardInterrupt` / `except Exception`), after which `main`
returns normally, so the interpreter exits with status 0 on every path. -/
def mainExitCode (envs : List IterEnv) : ℕ :=
  match (sortRun envs).2 with
  | .quit => 0
  | .fault => 0
  | .running => 0

/-! ## Trace predicates -/

/-- Motion or suction commands addressed to the robot arm. -/
def isArmCmd : Cmd → Bool
  | .moveTo _ _ _ => true
  | .pump _ => true
  | .home => true
  | _ => false

def isWaitKeyCheck : Cmd → Bool
  | .waitKeyCheck => true
  | _ => false

def isSpeedCmd : Cmd → Bool
  | .speed _ => true
  | _ => false

def isSerialOpen : Cmd → Bool
  | .serialOpen _ => true
  | _ => false

def isSerialClose : Cmd → Bool
  | .serialClose _ => true
  | _ => false

/-- Resource acquisition/release events (transport open/close, camera
open/release, window teardown). -/
def isResourceEvent : Cmd → Bool
  | .serialOpen _ => true
  | .serialClose _ => true
  | .camOpen => true
  | .capRelease => true
  | .destroyAllWindows => true
  | _ => false

/-! ## Helper lemmas -/

/-- The threshold constants the chain reads reduce to the literal bounds
100, 180, 45, 100, so the chain is the literal if/elif/else of the code. -/
theorem classifyChain_eq (p : ℕ) :
    classifyChain p =
      if 100 ≤ p ∧ p ≤ 180 then (.good, 9/10)
      else if p ≤ 45 then (.fully_burned, 85/100)
      else if p ≤ 100 then (.semi_burned, 8/10)
      else (.broken, 75/100) := rfl

/-- On a frame with at least one classifier contour, `detect_defects`
returns the classified branch with the chain's status/confidence and the
metrics block. -/
theorem detect_defects_cons (f : Frame) (a : ℚ) (rest : List ℚ)
    (h : f.clsAreas = a :: rest) :
    detect_defects f =
      .classified (classifyChain f.peak).1 (classifyChain f.peak).2
        ⟨f.peak, (f.imin, f.imax), maxAreaAux a rest⟩ := by
  unfold detect_defects
  rw [h]

/-- On a frame with no classifier contour, `detect_defects` returns the
bare no-biscuit dict. -/
theorem detect_defects_nil (f : Frame) (h : f.clsAreas = []) :
    detect_defects f = .no_biscuit_detected := by
  unfold detect_defects
  rw [h]

/-- The chain never leaves the initial `unknown` status in place. -/
theorem classifyChain_fst_mem (p : ℕ) :
    (classifyChain p).1 = .good ∨ (classifyChain p).1 = .broken ∨
      (classifyChain p).1 = .semi_burned ∨ (classifyChain p).1 = .fully_burned := by
  rw [classifyChain_eq]
  split_ifs <;> simp

/-- Every status the classifier can emit has a drop zone. -/
theorem drop_zones_of_classified (f : Frame) (st : Status) (c : ℚ) (m : Metrics)
    (h : detect_defects f = .classified st c m) :
    ∃ dz, drop_zones st = some dz := by
  cases hc : f.clsAreas with
  | nil => rw [detect_defects_nil f hc] at h; exact absurd h (by simp)
  | cons a rest =>
    rw [detect_defects_cons f a rest hc] at h
    obtain ⟨h1, -, -⟩ := DetectResult.classified.inj h
    rcases classifyChain_fst_mem f.peak with h2 | h2 | h2 | h2 <;>
      rw [← h1, h2] <;> exact ⟨_, rfl⟩

/-! ## Claims -/

/-- Claim C1: for every frame with at least one foreground contour,
classification evaluates the branches in fixed priority order, first match
winning: peak in [100,180] gives `good`/0.9; otherwise peak ≤ 45 gives
`fully_burned`/0.85; otherwise peak ≤ 100 gives `semi_burned`/0.80;
otherwise `broken`/0.75. In particular every such frame with peak ≤ 45 is
`fully_burned` even though it also satisfies the later `semi_burned` range
test. -/
theorem C1_classification_priority (f : Frame) (h : f.clsAreas ≠ []) :
    (100 ≤ f.peak ∧ f.peak ≤ 180 →
      ∃ m, detect_defects f = .classified .good (9/10) m) ∧
    (¬(100 ≤ f.peak ∧ f.peak ≤ 180) → f.peak ≤ 45 →
      ∃ m, detect_defects f = .classified .fully_burned (85/100) m) ∧
    (¬(100 ≤ f.peak ∧ f.peak ≤ 180) → ¬f.peak ≤ 45 → f.peak ≤ 100 →
      ∃ m, detect_defects f = .classified .semi_burned (8/10) m) ∧
    (¬(100 ≤ f.peak ∧ f.peak ≤ 180) → ¬f.peak ≤ 45 → ¬f.peak ≤ 100 →
      ∃ m, detect_defects f = .classified .broken (75/100) m) ∧
    (f.peak ≤ 45 →
      f.peak ≤ 100 ∧
        ∃ m, detect_defects f = .classified .fully_burned (85/100) m) := by
  cases hc : f.clsAreas with
  | nil => exact absurd hc h
  | cons a rest =>
    have hd := detect_defects_cons f a rest hc
    rw [classifyChain_eq] at hd
    refine ⟨fun h1 => ?_, fun h1 h2 => ?_, fun h1 h2 h3 => ?_,
      fun h1 h2 h3 => ?_, fun h2 => ?_⟩
    · rw [if_pos h1] at hd; exact ⟨_, hd⟩
    · rw [if_neg h1, if_pos h2] at hd; exact ⟨_, hd⟩
    · rw [if_neg h1, if_neg h2, if_pos h3] at hd; exact ⟨_, hd⟩
    · rw [if_neg h1, if_neg h2, if_neg h3] at hd; exact ⟨_, hd⟩
    · have h1 : ¬(100 ≤ f.peak ∧ f.peak ≤ 180) := by omega
      rw [if_neg h1, if_pos h2] at hd
      exact ⟨by omega, _, hd⟩

/-- Witness for C1 at the frame with peak 30 and one contour: peak 30 lies
in the later `semi_burned` test's range (≤ 100) yet the result is
`fully_burned` with confidence 0.85. -/
theorem C1_classification_priority_witness :
    (⟨100, [], 30, 0, 255, [10]⟩ : Frame).clsAreas ≠ [] ∧
      ((30 : ℕ) ≤ 45 ∧ (30 : ℕ) ≤ 100 ∧
        ∃ m, detect_defects ⟨100, [], 30, 0, 255, [10]⟩ =
          .classified .fully_burned (85/100) m) := by
  refine ⟨by simp, by decide, ?_⟩
  have h := (C1_classification_priority ⟨100, [], 30, 0, 255, [10]⟩ (by simp)).2.2.2.2
  exact h (by decide)

/-- A frame whose classifier thresholding finds no contour. -/
def frameEmpty : Frame := ⟨100, [], 120, 0, 255, []⟩

/-- Counterexample to claim C3: on a frame with no foreground contour the
code returns the bare dict with only the status key, so the result carries
neither a confidence value (the claim says confidence 0) nor a metrics
block (the claim says the metrics block is present regardless of which
branch is taken). -/
theorem C3_counterexample :
    detect_defects frameEmpty = .no_biscuit_detected ∧
    (detect_defects frameEmpty).hasConfidence = false ∧
    (detect_defects frameEmpty).hasMetrics = false := by
  refine ⟨?_, ?_, ?_⟩ <;> rfl

/-- Claim C3 (amended): for every frame in which no foreground contour is
found, classify returns the bare `no_biscuit_detected` result, which has no
confidence and no metrics fields; the metrics block (peak intensity,
(min,max) intensity range, contour area) is present exactly in the branches
where a contour is found. -/
theorem C3_no_contour_result (f : Frame) :
    (f.clsAreas = [] →
      detect_defects f = .no_biscuit_detected ∧
      (detect_defects f).hasConfidence = false ∧
      (detect_defects f).hasMetrics = false) ∧
    (∀ a rest, f.clsAreas = a :: rest →
      ∃ st c, detect_defects f =
        .classified st c ⟨f.peak, (f.imin, f.imax), maxAreaAux a rest⟩) := by
  constructor
  · intro h
    rw [detect_defects_nil f h]
    exact ⟨rfl, rfl, rfl⟩
  · intro a rest h
    rw [detect_defects_cons f a rest h]
    exact ⟨_, _, rfl⟩

/-- Witness for C3 (amended) at `frameEmpty`. -/
theorem C3_no_contour_result_witness :
    detect_defects frameEmpty = .no_biscuit_detected ∧
    (detect_defects frameEmpty).hasConfidence = false ∧
    (detect_defects frameEmpty).hasMetrics = false :=
  (C3_no_contour_result frameEmpty).1 rfl

/-- Claim C10: for every frame with at least one contour, the if/elif/else
chain is exhaustive and always overwrites the initial `unknown` status, so
the returned status is one of `good`, `broken`, `semi_burned`,
`fully_burned`, each of which has a drop-zone entry; the drop-zone lookup
after filtering the no-object case can therefore never miss a key. -/
theorem C10_drop_zone_lookup_total (f : Frame) (h : f.clsAreas ≠ []) :
    ∃ st c m, detect_defects f = .classified st c m ∧
      st ≠ Status.unknown ∧
      (st = .good ∨ st = .broken ∨ st = .semi_burned ∨ st = .fully_burned) ∧
      ∃ dz, drop_zones st = some dz := by
  cases hc : f.clsAreas with
  | nil => exact absurd hc h
  | cons a rest =>
    have hd := detect_defects_cons f a rest hc
    refine ⟨_, _, _, hd, ?_, classifyChain_fst_mem f.peak,
      drop_zones_of_classified f _ _ _ hd⟩
    rcases classifyChain_fst_mem f.peak with h2 | h2 | h2 | h2 <;>
      rw [h2] <;> simp

/-- Witness for C10 at a concrete one-contour frame. -/
theorem C10_drop_zone_lookup_total_witness :
    ∃ st c m,
      detect_defects ⟨100, [], 30, 0, 255, [7]⟩ = .classified st c m ∧
        st ≠ Status.unknown ∧
        (st = .good ∨ st = .broken ∨ st = .semi_burned ∨ st = .fully_burned) ∧
        ∃ dz, drop_zones st = some dz :=
  C10_drop_zone_lookup_total ⟨100, [], 30, 0, 255, [7]⟩ (by simp)

/-- Claim C9: when no contour exists, or the selected largest contour's
zeroth area moment is zero, locate does not fail: it returns the sentinel
`(0, 0, 0)` with `in_pick_zone = false`. -/
theorem C9_locate_no_object (f : Frame) :
    (f.locContours = [] → get_object_position f = ⟨0, 0, 0, false⟩) ∧
    (∀ c rest, f.locContours = c :: rest → (maxByAreaAux c rest).m00 = 0 →
      get_object_position f = ⟨0, 0, 0, false⟩) := by
  constructor
  · intro h
    unfold get_object_position
    rw [h]
  · intro c rest h hm
    unfold get_object_position
    rw [h]
    simp only [hm, if_pos]

/-- Witness for C9: a frame with no contours, and one whose only contour
has zero area moment. -/
theorem C9_locate_no_object_witness :
    get_object_position ⟨100, [], 120, 0, 255, []⟩ = ⟨0, 0, 0, false⟩ ∧
    get_object_position ⟨100, [⟨0, 0, 3⟩], 120, 0, 255, []⟩ = ⟨0, 0, 0, false⟩ :=
  ⟨(C9_locate_no_object ⟨100, [], 120, 0, 255, []⟩).1 rfl,
   (C9_locate_no_object ⟨100, [⟨0, 0, 3⟩], 120, 0, 255, []⟩).2 ⟨0, 0, 3⟩ [] rfl rfl⟩

/-- Claim C7: for every frame whose selected largest contour has a nonzero
zeroth area moment, locate reports `in_pick_zone` true iff
`|centroidX - width/2| < 50` with an exclusive boundary (`|dx| = 49` is in
the zone, `|dx| = 50` is out), returns workspace coordinates `x = 200`,
`z = 50` and `y = ((centroidX - width/2) / width) * 400`, and a centroid at
the exact frame centre yields `y = 0` and `in_pick_zone` true. -/
theorem C7_locate_mapping (f : Frame) (c : Contour) (rest : List Contour)
    (dx : ℚ) (hl : f.locContours = c :: rest)
    (hm : (maxByAreaAux c rest).m00 ≠ 0)
    (hdx : dx = ((pyInt ((maxByAreaAux c rest).m10 / (maxByAreaAux c rest).m00) : ℤ) : ℚ)
        - (f.width : ℚ) / 2) :
    (get_object_position f).x = 200 ∧
    (get_object_position f).z = 50 ∧
    (get_object_position f).y = dx / (f.width : ℚ) * 400 ∧
    ((get_object_position f).in_pick_zone = true ↔ |dx| < 50) ∧
    (|dx| = 49 → (get_object_position f).in_pick_zone = true) ∧
    (|dx| = 50 → (get_object_position f).in_pick_zone = false) ∧
    (dx = 0 →
      (get_object_position f).y = 0 ∧ (get_object_position f).in_pick_zone = true) := by
  subst hdx
  have hg : get_object_position f =
      ⟨200,
        (((pyInt ((maxByAreaAux c rest).m10 / (maxByAreaAux c rest).m00) : ℤ) : ℚ)
            - (f.width : ℚ) / 2) / (f.width : ℚ) * 400,
        50,
        decide (|((pyInt ((maxByAreaAux c rest).m10 / (maxByAreaAux c rest).m00) : ℤ) : ℚ)
            - (f.width : ℚ) / 2| < 50)⟩ := by
    unfold get_object_position
    rw [hl]
    simp only [hm, if_neg, pick_zone_margin, not_false_iff]
  rw [hg]
  refine ⟨rfl, rfl, rfl, by simp, fun h49 => ?_, fun h50 => ?_, fun h0 => ?_⟩
  · simp only [decide_eq_true_iff]
    rw [h49]; norm_num
  · simp only [decide_eq_false_iff_not]
    rw [h50]; norm_num
  · rw [h0]
    constructor
    · simp
    · simp only [decide_eq_true_iff]
      norm_num

/-- Witness for C7 at a frame of width 100 whose single contour has
centroid 50, the exact frame centre. -/
theorem C7_locate_mapping_witness :
    (get_object_position ⟨100, [⟨10, 1, 50⟩], 150, 0, 255, [10]⟩).x = 200 ∧
    (get_object_position ⟨100, [⟨10, 1, 50⟩], 150, 0, 255, [10]⟩).y = 0 ∧
    (get_object_position ⟨100, [⟨10, 1, 50⟩], 150, 0, 255, [10]⟩).z = 50 ∧
    (get_object_position ⟨100, [⟨10, 1, 50⟩], 150, 0, 255, [10]⟩).in_pick_zone = true := by
  have h := C7_locate_mapping ⟨100, [⟨10, 1, 50⟩], 150, 0, 255, [10]⟩ ⟨10, 1, 50⟩ [] 0
    rfl (by norm_num [maxByAreaAux]) (by norm_num [maxByAreaAux, pyInt])
  obtain ⟨hx, hz, -, -, -, -, h0⟩ := h
  obtain ⟨hy, hzone⟩ := h0 rfl
  exact ⟨hx, hy, hz, hzone⟩

/-! ## Trace-shape lemmas for the loop body -/

/-- Capture failure: log and `continue`; no commands, no quit check. -/
theorem runIter_none (e : IterEnv) (h : e.capture = none) :
    runIter e = ([], .next) := by
  unfold runIter
  rw [h]

/-- Object not in the pick zone: fall through to the quit check. -/
theorem runIter_outzone (e : IterEnv) (f : Frame) (hc : e.capture = some f)
    (hz : (get_object_position f).in_pick_zone = false) :
    runIter e = ([Cmd.waitKeyCheck], if e.quitKey then .brk else .next) := by
  unfold runIter
  rw [hc]
  simp only [hz, Bool.false_eq_true, if_false]

/-- Pick-zone stop followed by a no-biscuit classification: stop and resume
the conveyor, then `continue` (skipping the quit check). -/
theorem runIter_noBiscuit (e : IterEnv) (f : Frame) (hc : e.capture = some f)
    (hz : (get_object_position f).in_pick_zone = true)
    (hd : detect_defects f = .no_biscuit_detected) :
    runIter e = ([Cmd.speed 0, Cmd.speed conveyor_speed], .next) := by
  unfold runIter
  rw [hc]
  simp only [hz, if_true, hd]

/-- Pick-zone stop, classification succeeds, transport fails on the first
motion command: the sequence aborts after the conveyor stop and the
attempted move, and the iteration raises. -/
theorem runIter_moveFail (e : IterEnv) (f : Frame) (st : Status) (c : ℚ)
    (m : Metrics) (dz : ℚ × ℚ × ℚ) (hc : e.capture = some f)
    (hz : (get_object_position f).in_pick_zone = true)
    (hd : detect_defects f = .classified st c m)
    (hdz : drop_zones st = some dz) (hmf : e.moveFails = true) :
    runIter e = ([Cmd.speed 0,
      Cmd.moveTo (get_object_position f).x (get_object_position f).y
        (get_object_position f).z], .err) := by
  unfold runIter
  rw [hc]
  simp only [hz, if_true, hd, hdz, hmf]

/-- Pick-zone stop, classification succeeds, no transport failure: the full
pick/place command sequence, conveyor resume, and the quit check. -/
theorem runIter_pick (e : IterEnv) (f : Frame) (st : Status) (c : ℚ)
    (m : Metrics) (dz : ℚ × ℚ × ℚ) (hc : e.capture = some f)
    (hz : (get_object_position f).in_pick_zone = true)
    (hd : detect_defects f = .classified st c m)
    (hdz : drop_zones st = some dz) (hmf : e.moveFails = false) :
    runIter e = ([Cmd.speed 0] ++
        pickTrace (get_object_position f).x (get_object_position f).y
          (get_object_position f).z ++
        placeTrace dz.1 dz.2.1 dz.2.2 ++
        [Cmd.speed conveyor_speed, Cmd.waitKeyCheck],
      if e.quitKey then .brk else .next) := by
  unfold runIter
  rw [hc]
  simp only [hz, if_true, hd, hdz, hmf, Bool.false_eq_true, if_false]

/-- `main` always exits with status 0: every exception escaping `sort` is
caught and only logged. -/
theorem mainExitCode_eq_zero (envs : List IterEnv) : mainExitCode envs = 0 := by
  unfold mainExitCode
  cases (sortRun envs).2 <;> rfl

/-! ## Concrete frames and environments -/

/-- A width-100 frame whose single contour sits at the frame centre and
whose classifier view has peak 150 and one contour of area 10. -/
def framePick : Frame := ⟨100, [⟨10, 1, 50⟩], 150, 0, 255, [10]⟩

/-- Same geometry, but the classifier's own thresholding finds no contour. -/
def frameNB : Frame := ⟨100, [⟨10, 1, 50⟩], 120, 0, 255, []⟩

theorem framePick_in_zone : (get_object_position framePick).in_pick_zone = true := by
  norm_num [get_object_position, framePick, maxByAreaAux, pyInt, pick_zone_margin]

theorem framePick_pos : get_object_position framePick = ⟨200, 0, 50, true⟩ := by
  norm_num [get_object_position, framePick, maxByAreaAux, pyInt, pick_zone_margin]

theorem framePick_detect :
    detect_defects framePick = .classified .good (9/10) ⟨150, (0, 255), 10⟩ := by
  rw [detect_defects_cons framePick 10 [] rfl, classifyChain_eq]
  norm_num [framePick, maxAreaAux]

theorem frameNB_in_zone : (get_object_position frameNB).in_pick_zone = true := by
  norm_num [get_object_position, frameNB, maxByAreaAux, pyInt, pick_zone_margin]

theorem frameNB_detect : detect_defects frameNB = .no_biscuit_detected :=
  detect_defects_nil frameNB rfl

/-! ## Loop claims -/

/-- Claim C8: when an object is detected in the pick zone but classifying
the same frame returns no object, the controller resumes the conveyor at
its prior speed and continues without any arm motion or suction command and
without raising. -/
theorem C8_no_object_resume (e : IterEnv) (f : Frame) (hc : e.capture = some f)
    (hz : (get_object_position f).in_pick_zone = true)
    (hd : detect_defects f = .no_biscuit_detected) :
    runIter e = ([Cmd.speed 0, Cmd.speed conveyor_speed], .next) ∧
    (runIter e).1.countP isArmCmd = 0 ∧
    (runIter e).2 ≠ .err := by
  have h := runIter_noBiscuit e f hc hz hd
  rw [h]
  refine ⟨rfl, rfl, by simp⟩

/-- Witness for C8 at `frameNB`. -/
theorem C8_no_object_resume_witness :
    runIter ⟨some frameNB, false, false⟩ =
      ([Cmd.speed 0, Cmd.speed conveyor_speed], .next) :=
  (C8_no_object_resume ⟨some frameNB, false, false⟩ frameNB rfl
    frameNB_in_zone frameNB_detect).1

/-- Claim C6: each pick-place execution issues, in order: move to the pick
position, settle 0.5, suction on, settle 0.5, move to the drop position,
settle 0.5, suction off, settle 0.5; afterwards the conveyor is resumed at
its prior running speed (`conveyor_speed`, the same value the loop started
it with). -/
theorem C6_pick_place_order (e : IterEnv) (f : Frame) (st : Status) (c : ℚ)
    (m : Metrics) (dz : ℚ × ℚ × ℚ) (hc : e.capture = some f)
    (hz : (get_object_position f).in_pick_zone = true)
    (hd : detect_defects f = .classified st c m)
    (hdz : drop_zones st = some dz) (hmf : e.moveFails = false) :
    (runIter e).1 =
      [Cmd.speed 0,
       Cmd.moveTo (get_object_position f).x (get_object_position f).y
         (get_object_position f).z,
       Cmd.sleep (1/2), Cmd.pump 1, Cmd.sleep (1/2),
       Cmd.moveTo dz.1 dz.2.1 dz.2.2,
       Cmd.sleep (1/2), Cmd.pump 0, Cmd.sleep (1/2),
       Cmd.speed conveyor_speed, Cmd.waitKeyCheck] ∧
    conveyor_speed = 30 ∧ settle = 1/2 := by
  have h := runIter_pick e f st c m dz hc hz hd hdz hmf
  rw [h]
  exact ⟨rfl, rfl, rfl⟩

/-- Witness for C6 at `framePick` (status `good`, drop zone (200,0,50)). -/
theorem C6_pick_place_order_witness :
    (runIter ⟨some framePick, false, false⟩).1 =
      [Cmd.speed 0,
       Cmd.moveTo (get_object_position framePick).x (get_object_position framePick).y
         (get_object_position framePick).z,
       Cmd.sleep (1/2), Cmd.pump 1, Cmd.sleep (1/2),
       Cmd.moveTo 200 0 50,
       Cmd.sleep (1/2), Cmd.pump 0, Cmd.sleep (1/2),
       Cmd.speed conveyor_speed, Cmd.waitKeyCheck] :=
  (C6_pick_place_order ⟨some framePick, false, false⟩ framePick .good (9/10)
    ⟨150, (0, 255), 10⟩ (200, 0, 50) rfl framePick_in_zone framePick_detect
    rfl rfl).1

/-- Counterexample to claim C5: in an iteration whose frame capture fails,
and in an iteration that stops for the pick zone but classifies no object,
the `continue` statements skip the end-of-loop quit check entirely, so a
pending termination request is observed zero times (not once): with the
quit key held down, the capture-failure iteration leaves the loop running. -/
theorem C5_counterexample :
    (runIter ⟨none, true, false⟩).1.countP isWaitKeyCheck = 0 ∧
    (runLoop [⟨none, true, false⟩]).2 = .running ∧
    (runIter ⟨some frameNB, true, false⟩).1.countP isWaitKeyCheck = 0 ∧
    (runIter ⟨some frameNB, true, false⟩).2 = .next := by
  have h1 := runIter_none ⟨none, true, false⟩ rfl
  have h2 := runIter_noBiscuit ⟨some frameNB, true, false⟩ frameNB rfl
    frameNB_in_zone frameNB_detect
  refine ⟨by rw [h1]; rfl, ?_, by rw [h2]; rfl, by rw [h2]⟩
  simp [runLoop, h1]

/-- Claim C5 (amended): the termination request is observed exactly once
per loop iteration only on the paths that run to the end of the loop body
(no object in the pick zone, or a completed pick-place, where the check is
the final action and so never preempts the in-flight sequence); iterations
that end in `continue` — a failed capture, which is retried without
changing conveyor state, or a no-object classification after a pick-zone
stop — skip the check entirely. -/
theorem C5_termination_check (e : IterEnv) :
    (e.capture = none → runIter e = ([], .next)) ∧
    (∀ f, e.capture = some f → (get_object_position f).in_pick_zone = false →
      (runIter e).1.countP isWaitKeyCheck = 1 ∧
      (runIter e).1.countP isSpeedCmd = 0 ∧
      (runIter e).2 = (if e.quitKey then IterOut.brk else IterOut.next)) ∧
    (∀ f, e.capture = some f → (get_object_position f).in_pick_zone = true →
      detect_defects f = .no_biscuit_detected →
      (runIter e).1.countP isWaitKeyCheck = 0 ∧ (runIter e).2 = .next) ∧
    (∀ f st c m dz, e.capture = some f →
      (get_object_position f).in_pick_zone = true →
      detect_defects f = .classified st c m → drop_zones st = some dz →
      e.moveFails = false →
      (runIter e).1.countP isWaitKeyCheck = 1 ∧
      (runIter e).1.getLast? = some Cmd.waitKeyCheck ∧
      (runIter e).2 = (if e.quitKey then IterOut.brk else IterOut.next)) := by
  refine ⟨fun h => runIter_none e h, fun f hc hz => ?_, fun f hc hz hd => ?_,
    fun f st c m dz hc hz hd hdz hmf => ?_⟩
  · rw [runIter_outzone e f hc hz]
    exact ⟨rfl, rfl, rfl⟩
  · rw [runIter_noBiscuit e f hc hz hd]
    exact ⟨rfl, rfl⟩
  · rw [runIter_pick e f st c m dz hc hz hd hdz hmf]
    refine ⟨?_, ?_, rfl⟩
    · simp [pickTrace, placeTrace, isWaitKeyCheck]
    · simp [pickTrace, placeTrace]

/-- Witness for C5 (amended): the capture-failure path at a concrete
environment, and the completed-pick path at `framePick`. -/
theorem C5_termination_check_witness :
    runIter ⟨none, false, false⟩ = ([], .next) ∧
    (runIter ⟨some framePick, false, false⟩).1.getLast? = some Cmd.waitKeyCheck :=
  ⟨(C5_termination_check ⟨none, false, false⟩).1 rfl,
   ((C5_termination_check ⟨some framePick, false, false⟩).2.2.2 framePick .good
      (9/10) ⟨150, (0, 255), 10⟩ (200, 0, 50) rfl framePick_in_zone
      framePick_detect rfl rfl).2.1⟩

/-- Environment whose single iteration finds `framePick` in the pick zone
and then fails on the first motion command of the pick. -/
def envMoveFail : IterEnv := ⟨some framePick, false, true⟩

/-- Counterexample to claim C2: a run in which the transport fails during
the pick-place sequence ends in a fault, yet the process exit status is 0,
not non-zero — `main` catches the exception, logs it and returns
normally. -/
theorem C2_counterexample :
    (sortRun [envMoveFail]).2 = .fault ∧ mainExitCode [envMoveFail] = 0 := by
  have h := runIter_moveFail envMoveFail framePick .good (9/10)
    ⟨150, (0, 255), 10⟩ (200, 0, 50) rfl framePick_in_zone framePick_detect
    rfl rfl
  constructor
  · simp [sortRun, runLoop, h]
  · exact mainExitCode_eq_zero [envMoveFail]

/-- Claim C2 (amended): if an actuator operation fails during the sorting
loop (a motion command during pick-place), the controller aborts the
current pick-place sequence after the failed move, the shutdown cleanup
still runs, and the process terminates with exit status zero — `main`
catches the exception and only logs it — the same status as a
user-initiated stop, which also exits zero after cleanup. -/
theorem C2_fault_handling (e : IterEnv) (f : Frame) (hc : e.capture = some f)
    (hz : (get_object_position f).in_pick_zone = true)
    (hnb : detect_defects f ≠ .no_biscuit_detected)
    (hmf : e.moveFails = true) :
    runIter e = ([Cmd.speed 0,
      Cmd.moveTo (get_object_position f).x (get_object_position f).y
        (get_object_position f).z], .err) ∧
    (sortRun [e]).1 = [Cmd.home, Cmd.speed conveyor_speed, Cmd.speed 0,
      Cmd.moveTo (get_object_position f).x (get_object_position f).y
        (get_object_position f).z] ++ cleanupTrace ∧
    (sortRun [e]).2 = .fault ∧
    mainExitCode [e] = 0 ∧
    (∀ e2 : IterEnv, (runIter e2).2 = .brk →
      (sortRun [e2]).2 = .quit ∧ mainExitCode [e2] = 0) := by
  obtain ⟨st, c, m, hd⟩ : ∃ st c m, detect_defects f = .classified st c m := by
    cases hdd : detect_defects f with
    | no_biscuit_detected => exact absurd hdd hnb
    | classified st c m => exact ⟨st, c, m, rfl⟩
  obtain ⟨dz, hdz⟩ := drop_zones_of_classified f st c m hd
  have h := runIter_moveFail e f st c m dz hc hz hd hdz hmf
  refine ⟨h, ?_, ?_, mainExitCode_eq_zero [e], fun e2 hb => ?_⟩
  · simp [sortRun, runLoop, h]
  · simp [sortRun, runLoop, h]
  · exact ⟨by simp [sortRun, runLoop, hb], mainExitCode_eq_zero [e2]⟩

/-- Witness for C2 (amended) at `envMoveFail`, with the user-stop half
instantiated at an iteration that completes a pick with the quit key
down. -/
theorem C2_fault_handling_witness :
    (sortRun [envMoveFail]).1 = [Cmd.home, Cmd.speed conveyor_speed,
      Cmd.speed 0,
      Cmd.moveTo (get_object_position framePick).x
        (get_object_position framePick).y
        (get_object_position framePick).z] ++ cleanupTrace ∧
    (sortRun [(⟨some framePick, true, false⟩ : IterEnv)]).2 = .quit ∧
    mainExitCode [(⟨some framePick, true, false⟩ : IterEnv)] = 0 := by
  have h := C2_fault_handling envMoveFail framePick rfl framePick_in_zone
    (by rw [framePick_detect]; simp) rfl
  refine ⟨h.2.1, h.2.2.2.2 ⟨some framePick, true, false⟩ ?_⟩
  rw [runIter_pick ⟨some framePick, true, false⟩ framePick .good (9/10)
    ⟨150, (0, 255), 10⟩ (200, 0, 50) rfl framePick_in_zone framePick_detect
    rfl rfl]
  rfl

def isOpenOf (o : Owner) : Cmd → Bool
  | .serialOpen p => decide (p = o)
  | _ => false

def isCloseOf (o : Owner) : Cmd → Bool
  | .serialClose p => decide (p = o)
  | _ => false

def isCapRelease : Cmd → Bool
  | .capRelease => true
  | _ => false

def isCamOpen : Cmd → Bool
  | .camOpen => true
  | _ => false

/-- The loop body never touches a resource: no transport open/close, no
camera open/release, no window teardown. -/
theorem runIter_no_resource (e : IterEnv) :
    ∀ x ∈ (runIter e).1, isResourceEvent x = false := by
  obtain ⟨cap, qk, mf⟩ := e
  cases cap with
  | none => simp [runIter]
  | some f =>
    cases hz : (get_object_position f).in_pick_zone with
    | false => simp [runIter, hz, isResourceEvent]
    | true =>
      cases hd : detect_defects f with
      | no_biscuit_detected => simp [runIter, hz, hd, isResourceEvent]
      | classified st c m =>
        cases hdz : drop_zones st with
        | none => simp [runIter, hz, hd, hdz, isResourceEvent]
        | some dz =>
          cases mf <;>
            simp [runIter, hz, hd, hdz, pickTrace, placeTrace, isResourceEvent]

/-- The whole loop never touches a resource. -/
theorem runLoop_no_resource (envs : List IterEnv) :
    ∀ x ∈ (runLoop envs).1, isResourceEvent x = false := by
  induction envs with
  | nil => simp [runLoop]
  | cons e rest ih =>
    cases ho : (runIter e).2 with
    | next =>
      intro x hx
      simp only [runLoop, ho, List.mem_append] at hx
      rcases hx with h | h
      · exact runIter_no_resource e x h
      · exact ih x h
    | brk =>
      intro x hx
      simp only [runLoop, ho] at hx
      exact runIter_no_resource e x hx
    | err =>
      intro x hx
      simp only [runLoop, ho] at hx
      exact runIter_no_resource e x hx

/-- Counterexample to claim C4: the code opens a serial transport handle
twice at startup (once in `VisionBasedSorter.__init__` and once inside
`RobotController.__init__`, both on the same port) and issues two transport
closes during shutdown, so the transport is not opened exactly once nor
closed exactly once; moreover the robot's transport close precedes the
conveyor-stop command in the cleanup, contradicting the claimed order. -/
theorem C4_counterexample :
    (programTrace []).countP isSerialOpen = 2 ∧
    (programTrace []).countP isSerialClose = 2 ∧
    cleanupTrace[3]? = some (Cmd.serialClose .robot) ∧
    cleanupTrace[4]? = some (Cmd.speed 0) := by
  exact ⟨rfl, rfl, rfl, rfl⟩

/-- Claim C4 (amended): two serial transport handles — the sorter's and the
robot controller's — are each opened exactly once at startup and each
closed exactly once during shutdown; the camera is opened once at startup
and released once during shutdown; the loop body itself never opens or
closes a resource, so the cleanup block runs exactly once and in its fixed
order (release camera, destroy windows, suction off, close robot transport,
conveyor speed 0, close sorter transport) on every exit path, including a
shutdown triggered mid pick-place. -/
theorem C4_transport_lifecycle (envs : List IterEnv) :
    programTrace envs =
      initTrace ++ ([Cmd.home, Cmd.speed conveyor_speed] ++ (runLoop envs).1
        ++ cleanupTrace) ∧
    (∀ x ∈ (runLoop envs).1, isResourceEvent x = false) ∧
    (programTrace envs).countP (isOpenOf .sorter) = 1 ∧
    (programTrace envs).countP (isOpenOf .robot) = 1 ∧
    (programTrace envs).countP (isCloseOf .sorter) = 1 ∧
    (programTrace envs).countP (isCloseOf .robot) = 1 ∧
    (programTrace envs).countP isCapRelease = 1 ∧
    (programTrace envs).countP isCamOpen = 1 := by
  have ha : programTrace envs =
      initTrace ++ ([Cmd.home, Cmd.speed conveyor_speed] ++ (runLoop envs).1
        ++ cleanupTrace) := rfl
  have hz : ∀ p : Cmd → Bool, (∀ x, p x = true → isResourceEvent x = true) →
      (runLoop envs).1.countP p = 0 := by
    intro p hp
    rw [List.countP_eq_zero]
    intro a hmem hpa
    have h := runLoop_no_resource envs a hmem
    rw [hp a hpa] at h
    exact Bool.noConfusion h
  refine ⟨ha, runLoop_no_resource envs, ?_, ?_, ?_, ?_, ?_, ?_⟩ <;>
    rw [ha, List.countP_append, List.countP_append, List.countP_append,
      hz _ (by intro x; cases x <;> simp [isOpenOf, isCloseOf, isCapRelease,
        isCamOpen, isResourceEvent])] <;>
    rfl

/-- Witness for C4 (amended) on the empty run and on a run that faults mid
pick-place. -/
theorem C4_transport_lifecycle_witness :
    (programTrace []).countP (isOpenOf .sorter) = 1 ∧
    (programTrace []).countP (isCloseOf .robot) = 1 ∧
    (programTrace [envMoveFail]).countP isCapRelease = 1 :=
  ⟨(C4_transport_lifecycle []).2.2.1,
   (C4_transport_lifecycle []).2.2.2.2.2.1,
   (C4_transport_lifecycle [envMoveFail]).2.2.2.2.2.2.1⟩

end WLAKATA
